import Mathlib

/-!
Shallow embedding of the employeest-be backend (Django REST app `api`):
the data model (`api/models.py`), the authorization policy
(`api/permissions.py` and the `get_permissions` dispatch of
`api/views.py`), the task state-machine actions (`TaskViewSet.start_progress`,
`TaskViewSet.mark_as_done`), the serializer validations
(`api/serializers.py`), the work-log query scoping
(`WorkLogViewSet.get_queryset`) and the aggregation/chart endpoints
(`ProjectViewSet.project_velocity_chart`, `BusinessStatisticsViews.get`).

Users, projects and tasks are records carrying exactly the fields the
verified code paths inspect.  Statuses, roles and error messages are the
literal strings of the source.  Timestamps are whole days since an epoch
that falls on a Monday, so Django's `TruncWeek` becomes truncation to a
multiple of seven days.
-/

namespace Employeest

/-- HTTP methods, as the REST framework sees them. -/
inductive Method where
  | get
  | head
  | options
  | post
  | put
  | patch
  | delete
deriving DecidableEq, Repr

/-- Django REST framework `permissions.SAFE_METHODS`: GET, HEAD, OPTIONS. -/
def SAFE_METHODS : List Method := [Method.get, Method.head, Method.options]

/-- User ids. -/
abbrev UserId := Nat

/-- The authenticated actor, with the fields the permission classes and
query scoping read: `is_staff`, `is_authenticated` and the custom
`role` field of `api.models.User` (choices owner / employee /
top_employee / admin, default "employee"). -/
structure User where
  uid : UserId
  is_staff : Bool
  is_authenticated : Bool
  role : String
deriving DecidableEq, Repr

/-- A `Project` row, restricted to the fields the policy reads:
`owner` (a User foreign key) and the `managers` many-to-many set. -/
structure Project where
  pid : Nat
  owner : UserId
  managers : List UserId
deriving DecidableEq, Repr

/-- A `Task` row as the object-level permission sees it: its optional
`assignee` and its parent `project`. -/
structure TaskObj where
  tid : Nat
  assignee : Option UserId
  project : Project
deriving DecidableEq, Repr

/-- `api.permissions.IsProjectOwner.has_object_permission`:
`obj.owner == request.user`. -/
def IsProjectOwner (u : User) (obj : Project) : Bool :=
  obj.owner == u.uid

/-- `api.permissions.IsAssigneeOrProjectOwner.has_object_permission`:
on a safe method, project owner or assignee or staff; otherwise
project owner or assignee. -/
def IsAssigneeOrProjectOwner (u : User) (m : Method) (obj : TaskObj) : Bool :=
  if SAFE_METHODS.contains m then
    obj.project.owner == u.uid || obj.assignee == some u.uid || u.is_staff
  else
    obj.project.owner == u.uid || obj.assignee == some u.uid

/-- `api.permissions.IsAssigneeOrProjectManagerOrOwner.has_object_permission`.
Declared in `permissions.py` but referenced by no view. -/
def IsAssigneeOrProjectManagerOrOwner (u : User) (m : Method) (obj : TaskObj) : Bool :=
  if obj.assignee == some u.uid then true
  else if obj.project.owner == u.uid then true
  else if obj.project.managers.contains u.uid then true
  else if u.is_staff && SAFE_METHODS.contains m then true
  else false

/-- `api.permissions.IsWorkLogOwner.has_object_permission`:
`obj.user == request.user`. -/
def IsWorkLogOwnerCheck (ownerUid : UserId) (u : User) : Bool :=
  ownerUid == u.uid

/-- The viewset actions of `TaskViewSet` (`patch` stands for the partial
update action, `put` for the full update action). -/
inductive TaskAction where
  | listA
  | retrieve
  | create
  | updateA
  | patchA
  | destroy
  | start_progress
  | mark_as_done
  | history
deriving DecidableEq, Repr

/-- The actions for which `TaskViewSet.get_permissions` installs
`IsAssigneeOrProjectOwner` on top of `IsAuthenticated`: update,
partial update, destroy, and the two transition actions. -/
def taskGuardedActions : List TaskAction :=
  [TaskAction.updateA, TaskAction.patchA, TaskAction.destroy,
   TaskAction.start_progress, TaskAction.mark_as_done]

/-- Object-level access decision of `TaskViewSet`: `IsAuthenticated`
always, plus `IsAssigneeOrProjectOwner` on the guarded actions
(`TaskViewSet.get_permissions`). -/
def taskActionAllowed (u : User) (act : TaskAction) (m : Method) (obj : TaskObj) : Bool :=
  u.is_authenticated &&
    (if taskGuardedActions.contains act then IsAssigneeOrProjectOwner u m obj else true)

/-- The viewset actions of `ProjectViewSet`, including its two chart
sub-actions. -/
inductive ProjectAction where
  | listA
  | retrieve
  | create
  | updateA
  | patchA
  | destroy
  | task_status_chart
  | project_velocity_chart
deriving DecidableEq, Repr

/-- The actions for which `ProjectViewSet.get_permissions` installs
`IsProjectOwner`: update, partial update, destroy, and both chart
sub-actions. -/
def projectGuardedActions : List ProjectAction :=
  [ProjectAction.updateA, ProjectAction.patchA, ProjectAction.destroy,
   ProjectAction.task_status_chart, ProjectAction.project_velocity_chart]

/-- Object-level access decision of `ProjectViewSet`: `IsAuthenticated`
always, plus `IsProjectOwner` on the guarded actions. -/
def projectActionAllowed (u : User) (act : ProjectAction) (obj : Project) : Bool :=
  u.is_authenticated &&
    (if projectGuardedActions.contains act then IsProjectOwner u obj else true)

/-! ## Task state machine (`TaskViewSet.start_progress`, `TaskViewSet.mark_as_done`) -/

/-- The mutable part of a `Task` row touched by the transition actions:
its `status` string and its `updated_at` timestamp (days; `auto_now`
refreshes it on every save). -/
structure TaskState where
  status : String
  updated_at : Int
deriving DecidableEq, Repr

/-- A `TaskHistory` row as the transition actions create it. -/
structure HistoryEntry where
  field_changed : Option String
  old_value : Option String
  new_value : Option String
  change_description : String
deriving DecidableEq, Repr

/-- HTTP status of the transition responses: 200 on success, 400
(`HTTP_400_BAD_REQUEST`) on an illegal transition. -/
inductive HttpCode where
  | ok
  | badRequest
deriving DecidableEq, Repr

/-- Result of a transition action: the task row, the task's history log
(oldest first), and the response code. -/
structure TransitionResult where
  task : TaskState
  history : List HistoryEntry
  code : HttpCode
deriving DecidableEq, Repr

/-- `TaskViewSet.start_progress`: if the status is `TODO`, set it to
`IN_PROGRESS`, save (which refreshes `updated_at` via `auto_now`) and
append one `TaskHistory` row with `field_changed="status"`; from any
other status answer 400 and change nothing. -/
def start_progress (t : TaskState) (hist : List HistoryEntry) (now : Int) : TransitionResult :=
  if t.status == "TODO" then
    let old_status := t.status
    let t' : TaskState := { status := "IN_PROGRESS", updated_at := now }
    { task := t'
      history := hist ++ [{ field_changed := some "status", old_value := some old_status,
                            new_value := some t'.status,
                            change_description := "Status changed to In Progress" }]
      code := HttpCode.ok }
  else
    { task := t, history := hist, code := HttpCode.badRequest }

/-- `TaskViewSet.mark_as_done`: if the status is `IN_PROGRESS`, set it to
`DONE`, set `updated_at = timezone.now()`, save, and append one
`TaskHistory` row with `field_changed="status"`; from any other status
answer 400 and change nothing. -/
def mark_as_done (t : TaskState) (hist : List HistoryEntry) (now : Int) : TransitionResult :=
  if t.status == "IN_PROGRESS" then
    let old_status := t.status
    let t' : TaskState := { status := "DONE", updated_at := now }
    { task := t'
      history := hist ++ [{ field_changed := some "status", old_value := some old_status,
                            new_value := some t'.status,
                            change_description := "Status changed to Done" }]
      code := HttpCode.ok }
  else
    { task := t, history := hist, code := HttpCode.badRequest }

/-! ## WorkLog validation (`WorkLogSerializer.validate`) -/

/-- The two reference fields of a stored `WorkLog` row: the optional
task id and the optional project id. -/
structure WorkLogRefs where
  task : Option Nat
  project : Option Nat
deriving DecidableEq, Repr

/-- An incoming write's validated data for one reference field:
`none` when the key is absent from the payload, `some v` when the key
is present with value `v` (`v = none` encodes an explicit null). -/
abbrev FieldPatch := Option (Option Nat)

/-- `data.get('task', instance.task if self.instance else None)`: the
value the row would hold after the write. -/
def effectiveRef (patch : FieldPatch) (inst : Option (Option Nat)) : Option Nat :=
  match patch with
  | some v => v
  | none =>
    match inst with
    | some cur => cur
    | none => none

/-- `WorkLogSerializer.validate`: reject when the effective state has
both task and project, or neither; otherwise accept. `inst` is
`self.instance` (`none` on create). -/
def worklog_validate (inst : Option WorkLogRefs) (taskPatch projectPatch : FieldPatch) :
    Except String Unit :=
  let effective_task := effectiveRef taskPatch (inst.map WorkLogRefs.task)
  let effective_project := effectiveRef projectPatch (inst.map WorkLogRefs.project)
  if effective_task.isSome && effective_project.isSome then
    Except.error "Work log cannot be associated with both a task and a project simultaneously."
  else if !effective_task.isSome && !effective_project.isSome then
    Except.error "Work log must be associated with a task or a project."
  else
    Except.ok ()

/-- A WorkLog write as the serializer performs it: validate first, and
only on success produce the row's new reference fields. -/
def worklog_apply_write (inst : Option WorkLogRefs) (taskPatch projectPatch : FieldPatch) :
    Except String WorkLogRefs :=
  match worklog_validate inst taskPatch projectPatch with
  | Except.error e => Except.error e
  | Except.ok _ =>
    Except.ok { task := effectiveRef taskPatch (inst.map WorkLogRefs.task),
                project := effectiveRef projectPatch (inst.map WorkLogRefs.project) }

/-- Exactly one of the two references is set. -/
def xorRefs (w : WorkLogRefs) : Prop :=
  (w.task.isSome ∧ w.project.isNone) ∨ (w.task.isNone ∧ w.project.isSome)

instance (w : WorkLogRefs) : Decidable (xorRefs w) := by
  unfold xorRefs; infer_instance

/-! ## Parent-task validation (`TaskSerializer.validate_parent_task_id`) -/

/-- `TaskSerializer.validate_parent_task_id`: `existingIds` is the set of
task primary keys (`Task.objects`), `inst` is `self.instance`'s id
(`none` on create), `value` the submitted parent id (`none` for null).
Rejects a missing parent, then the immediate self-reference; everything
else passes. -/
def validate_parent_task_id (existingIds : List Nat) (inst : Option Nat)
    (value : Option Nat) : Except String (Option Nat) :=
  match value with
  | none => Except.ok none
  | some vid =>
    if !existingIds.contains vid then
      Except.error "Parent task does not exist."
    else
      match inst with
      | some iid =>
        if vid == iid then Except.error "A task cannot be its own parent."
        else Except.ok (some vid)
      | none => Except.ok (some vid)

/-- A task update restricted to the `parent_task_id` field: validation
runs before any mutation, so on error the stored parent is unchanged.
Returns the request outcome together with the parent the row holds
afterwards. -/
def task_update_parent (existingIds : List Nat) (taskId : Nat) (storedParent : Option Nat)
    (value : Option Nat) : Except String Unit × Option Nat :=
  match validate_parent_task_id existingIds (some taskId) value with
  | Except.error e => (Except.error e, storedParent)
  | Except.ok v => (Except.ok (), v)

/-- Membership of `target` in the parent chain of `start` under the
parent map `pm`, walking at most `fuel` edges. -/
def parentChainMem (pm : Nat → Option Nat) : Nat → Nat → Nat → Bool
  | 0, _, _ => false
  | fuel + 1, start, target =>
    match pm start with
    | none => false
    | some p => p == target || parentChainMem pm fuel p target

/-! ## WorkLog query scoping (`WorkLogViewSet.get_queryset`) -/

/-- A stored `WorkLog` row as the scoping logic sees it: its primary key
and its recording user. -/
structure WorkLogRow where
  wid : Nat
  user : UserId
deriving DecidableEq, Repr

/-- `WorkLogViewSet.get_queryset`: staff or role "admin" see every row;
any other authenticated user sees only their own rows; an
unauthenticated user sees none. -/
def worklog_get_queryset (u : User) (logs : List WorkLogRow) : List WorkLogRow :=
  if u.is_staff || u.role == "admin" then logs
  else if u.is_authenticated then logs.filter (fun w => w.user == u.uid)
  else []

/-- Retrieval of one WorkLog by primary key: a lookup inside the scoped
queryset, `none` meaning the 404 `NotFound` outcome. -/
def worklog_retrieve (u : User) (logs : List WorkLogRow) (wid : Nat) : Option WorkLogRow :=
  (worklog_get_queryset u logs).find? (fun w => w.wid == wid)

/-! ## Registration (`UserRegistrationSerializer`, `api.models.User.role`) -/

/-- A registration request body. `role` is the value a client may try to
submit for the `role` field; the serializer declares that field
read-only (`extra_kwargs = \x7b'role': \x7b'read_only': True\x7d\x7d`). -/
structure RegRequest where
  username : String
  email : String
  password : String
  password2 : String
  first_name : Option String
  last_name : Option String
  phone_number : Option String
  role : Option String
deriving DecidableEq, Repr

/-- A created account with the fields `create_user` sets; `role` falls
back to the model default `"employee"` because `create` passes no role
argument. -/
structure Account where
  username : String
  email : String
  password : String
  first_name : String
  last_name : String
  phone_number : String
  role : String
deriving DecidableEq, Repr

/-- `UserRegistrationSerializer` validation plus `create`: the
field-level uniqueness checks, the password match check, then
`User.objects.create_user(...)` with no role argument, so the model
default `role="employee"` applies. The read-only `role` input is never
consulted. -/
def register_user (existingUsernames existingEmails : List String) (r : RegRequest) :
    Except String Account :=
  if existingUsernames.contains r.username then
    Except.error "A user with that username already exists."
  else if existingEmails.contains r.email then
    Except.error "A user with that email address already exists."
  else if !(r.password == r.password2) then
    Except.error "Password fields didn't match."
  else
    Except.ok { username := r.username
                email := r.email
                password := r.password
                first_name := r.first_name.getD ""
                last_name := r.last_name.getD ""
                phone_number := r.phone_number.getD ""
                role := "employee" }

/-! ## Aggregation engine (`ProjectViewSet.project_velocity_chart`,
`BusinessStatisticsViews.get`) -/

/-- A `Task` row as the aggregation queries see it. `updated_at` is in
whole days since an epoch Monday. -/
structure TaskRow where
  project : Nat
  status : String
  story_points : Option Int
  updated_at : Int
deriving DecidableEq, Repr

/-- Django's `TruncWeek` under the day-count convention: truncate the
timestamp down to the Monday (multiple of seven) that starts its week. -/
def truncWeek (d : Int) : Int := d - d % 7

/-- The ORM filter of `project_velocity_chart`:
`project=P, status='DONE', story_points__isnull=False,
updated_at__gte = now - 90 days`. -/
def velocityFilter (now : Int) (p : Nat) (tasks : List TaskRow) : List TaskRow :=
  tasks.filter fun t =>
    t.project == p && t.status == "DONE" && t.story_points.isSome &&
      decide (now - 90 ≤ t.updated_at)

/-- Insert a key into an ascending duplicate-free list, keeping it
ascending and duplicate-free. -/
def sortedInsert (x : Int) : List Int → List Int
  | [] => [x]
  | y :: ys =>
    if x < y then x :: y :: ys
    else if x == y then y :: ys
    else y :: sortedInsert x ys

/-- The distinct group-by keys in ascending order, as
`values(...).annotate(...).order_by(...)` emits them. -/
def sortedKeys (l : List Int) : List Int := l.foldr sortedInsert []

/-- `Sum('story_points')` over a bucket's rows. -/
def sumPoints (ts : List TaskRow) : Int :=
  ts.foldl (fun a t => a + t.story_points.getD 0) 0

/-- The grouped query of `project_velocity_chart`: filtered rows,
annotated with `period_start = TruncWeek(updated_at)`, grouped by
`period_start` with `Sum('story_points')`, ordered by `period_start`
ascending. Each entry is (week start, total story points). -/
def velocitySeries (now : Int) (p : Nat) (tasks : List TaskRow) : List (Int × Int) :=
  let filtered := velocityFilter now p tasks
  (sortedKeys (filtered.map fun t => truncWeek t.updated_at)).map
    fun w => (w, sumPoints (filtered.filter fun t => truncWeek t.updated_at == w))

/-- Outcome of a chart endpoint: 404 `NoDataAvailable` with its
per-report message, 200 with the rendered chart URL, or 500
`ChartRenderingFailed`. -/
inductive ChartOutcome where
  | noData (message : String)
  | chartUrl (url : String)
  | renderFailed
deriving DecidableEq, Repr

/-- `ProjectViewSet.project_velocity_chart`. `render` stands for the
external `get_chart_url` call (`some url` on success, `none` on a
network/decode failure). The second component records whether the
export adapter was invoked at all. -/
def project_velocity_chart (now : Int) (p : Nat) (tasks : List TaskRow)
    (render : List (Int × Int) → Option String) : ChartOutcome × Bool :=
  let velocity_data := velocitySeries now p tasks
  if velocity_data.isEmpty then
    (ChartOutcome.noData "Not enough data to calculate project velocity.", false)
  else
    match render velocity_data with
    | some chart_url => (ChartOutcome.chartUrl chart_url, true)
    | none => (ChartOutcome.renderFailed, true)

/-- The grouped query of `BusinessStatisticsViews.get`: DONE tasks with
story points updated in the last 365 days, bucketed by
`TruncMonth(updated_at)` and summed. `monthOf` stands for the calendar
month computation `TruncMonth`, external date arithmetic under the
day-count convention. -/
def businessSeries (monthOf : Int → Int) (now : Int) (tasks : List TaskRow) :
    List (Int × Int) :=
  let filtered := tasks.filter fun t =>
    t.status == "DONE" && decide (now - 365 ≤ t.updated_at) && t.story_points.isSome
  (sortedKeys (filtered.map fun t => monthOf t.updated_at)).map
    fun m => (m, sumPoints (filtered.filter fun t => monthOf t.updated_at == m))

/-- `BusinessStatisticsViews.get`: same empty-check-then-render shape as
the velocity chart, with its own 404 message. -/
def business_statistics_get (monthOf : Int → Int) (now : Int) (tasks : List TaskRow)
    (render : List (Int × Int) → Option String) : ChartOutcome × Bool :=
  let completed_tasks_monthly := businessSeries monthOf now tasks
  if completed_tasks_monthly.isEmpty then
    (ChartOutcome.noData "No completed tasks with story points found for the last year.", false)
  else
    match render completed_tasks_monthly with
    | some chart_url => (ChartOutcome.chartUrl chart_url, true)
    | none => (ChartOutcome.renderFailed, true)

/-- The spec's velocity scenario: three DONE tasks of project 1 with
story points 8, 2 and 1, all updated within the 90 days before day
100, plus a task of another project, a non-DONE task and a DONE task
without story points that the filter must drop. -/
def exampleVelocityTasks : List TaskRow :=
  [⟨1, "DONE", some 8, 95⟩,
   ⟨1, "DONE", some 2, 96⟩,
   ⟨1, "DONE", some 1, 80⟩,
   ⟨2, "DONE", some 30, 95⟩,
   ⟨1, "TODO", some 40, 95⟩,
   ⟨1, "DONE", none, 95⟩]

/-! ## Theorems -/

/-- C7: for every Project, the write/delete policy check and the
owner-only chart sub-actions pass exactly for the Project's owner
(given authentication), read (list/retrieve) is allowed to any
authenticated user, and the decision never depends on the `managers`
set. -/
theorem project_owner_policy (u : User) (p : Project) (act : ProjectAction) :
    (projectGuardedActions.contains act = true →
      (projectActionAllowed u act p = true ↔
        u.is_authenticated = true ∧ p.owner = u.uid)) ∧
    ((act = ProjectAction.listA ∨ act = ProjectAction.retrieve) →
      (projectActionAllowed u act p = true ↔ u.is_authenticated = true)) ∧
    (∀ ms : List UserId,
      projectActionAllowed u act { p with managers := ms } = projectActionAllowed u act p) := by
  refine ⟨fun hact => ?_, fun hread => ?_, fun ms => rfl⟩
  · simp only [projectActionAllowed, hact, if_true]
    simp [IsProjectOwner, Bool.and_eq_true, beq_iff_eq]
  · have hact : projectGuardedActions.contains act = false := by
      rcases hread with h | h <;> subst h <;> rfl
    simp only [projectActionAllowed, hact, if_false]
    simp

/-- Closed instance of `project_owner_policy`: the owner of a project
passes the update check exactly when authenticated and owning, and a
retrieve is allowed to any authenticated user. -/
theorem project_owner_policy_witness :
    ((projectActionAllowed ⟨1, false, true, "owner"⟩ ProjectAction.updateA ⟨10, 1, []⟩ = true ↔
        (true = true ∧ 1 = 1)) ∧
      (projectActionAllowed ⟨2, false, true, "employee"⟩ ProjectAction.retrieve ⟨10, 1, []⟩ = true ↔
        true = true)) :=
  ⟨(project_owner_policy ⟨1, false, true, "owner"⟩ ⟨10, 1, []⟩ ProjectAction.updateA).1 (by decide),
   (project_owner_policy ⟨2, false, true, "employee"⟩ ⟨10, 1, []⟩ ProjectAction.retrieve).2.1
     (Or.inr rfl)⟩

/-- C2: `start_progress` succeeds exactly from status `TODO`; on success
the status becomes `IN_PROGRESS` and exactly one `TaskHistory` row with
`field_changed="status"` recording old and new value is appended; from
any other status the response is 400 and neither the task nor the
history log changes. -/
theorem start_progress_spec (t : TaskState) (hist : List HistoryEntry) (now : Int) :
    ((start_progress t hist now).code = HttpCode.ok ↔ t.status = "TODO") ∧
    (t.status = "TODO" →
      (start_progress t hist now).task.status = "IN_PROGRESS" ∧
      (start_progress t hist now).history =
        hist ++ [{ field_changed := some "status", old_value := some "TODO",
                   new_value := some "IN_PROGRESS",
                   change_description := "Status changed to In Progress" }]) ∧
    (t.status ≠ "TODO" →
      (start_progress t hist now).code = HttpCode.badRequest ∧
      (start_progress t hist now).task = t ∧
      (start_progress t hist now).history = hist) := by
  by_cases h : t.status = "TODO" <;> simp [start_progress, h]

/-- Closed instance of `start_progress_spec`: from `TODO` the transition
succeeds and appends the one status row. -/
theorem start_progress_spec_witness :
    (start_progress ⟨"TODO", 0⟩ [] 5).task.status = "IN_PROGRESS" ∧
    (start_progress ⟨"TODO", 0⟩ [] 5).history =
      [] ++ [{ field_changed := some "status", old_value := some "TODO",
               new_value := some "IN_PROGRESS",
               change_description := "Status changed to In Progress" }] :=
  (start_progress_spec ⟨"TODO", 0⟩ [] 5).2.1 rfl

/-- C3: `mark_as_done` succeeds exactly from status `IN_PROGRESS`; on
success the status becomes `DONE`, the update timestamp is refreshed to
now, and one `TaskHistory` row with `field_changed="status"` is
appended; from any other status the response is 400 and nothing
changes. -/
theorem mark_as_done_spec (t : TaskState) (hist : List HistoryEntry) (now : Int) :
    ((mark_as_done t hist now).code = HttpCode.ok ↔ t.status = "IN_PROGRESS") ∧
    (t.status = "IN_PROGRESS" →
      (mark_as_done t hist now).task.status = "DONE" ∧
      (mark_as_done t hist now).task.updated_at = now ∧
      (mark_as_done t hist now).history =
        hist ++ [{ field_changed := some "status", old_value := some "IN_PROGRESS",
                   new_value := some "DONE",
                   change_description := "Status changed to Done" }]) ∧
    (t.status ≠ "IN_PROGRESS" →
      (mark_as_done t hist now).code = HttpCode.badRequest ∧
      (mark_as_done t hist now).task = t ∧
      (mark_as_done t hist now).history = hist) := by
  by_cases h : t.status = "IN_PROGRESS" <;> simp [mark_as_done, h]

/-- Closed instance of `mark_as_done_spec`: from `IN_PROGRESS` the
transition succeeds, refreshes the timestamp and appends the row. -/
theorem mark_as_done_spec_witness :
    (mark_as_done ⟨"IN_PROGRESS", 0⟩ [] 7).task.status = "DONE" ∧
    (mark_as_done ⟨"IN_PROGRESS", 0⟩ [] 7).task.updated_at = 7 ∧
    (mark_as_done ⟨"IN_PROGRESS", 0⟩ [] 7).history =
      [] ++ [{ field_changed := some "status", old_value := some "IN_PROGRESS",
               new_value := some "DONE",
               change_description := "Status changed to Done" }] :=
  (mark_as_done_spec ⟨"IN_PROGRESS", 0⟩ [] 7).2.1 rfl

/-- C1 (counterexample): the claim that a Task write is allowed exactly
to the assignee, the project owner, or a user listed in the project's
managers is false: an authenticated manager (uid 2, listed in the
managers of project 7 owned by uid 1) issuing a PUT update on an
unassigned task of that project is denied, because the installed
permission class `IsAssigneeOrProjectOwner` never consults `managers`. -/
theorem task_write_manager_denied :
    ¬ (∀ (u : User) (act : TaskAction) (m : Method) (obj : TaskObj),
        taskGuardedActions.contains act = true →
        SAFE_METHODS.contains m = false →
        (taskActionAllowed u act m obj = true ↔
          (u.is_authenticated = true ∧
            (obj.assignee = some u.uid ∨ obj.project.owner = u.uid ∨
              u.uid ∈ obj.project.managers)))) := by
  intro h
  have hiff := h ⟨2, false, true, "employee"⟩ TaskAction.updateA Method.put
    ⟨5, none, ⟨7, 1, [2]⟩⟩ (by decide) (by decide)
  have hallow := hiff.mpr (by simp)
  exact absurd hallow (by decide)

/-- C1 (amended): on the guarded actions (update, partial update,
destroy, start_progress, mark_as_done) a non-safe request is allowed
exactly to an authenticated project owner or assignee — membership in
the project's `managers` grants nothing; on a safe method a staff
actor is additionally allowed; and the decision never depends on the
`managers` set. -/
theorem task_write_policy_assignee_or_owner (u : User) (act : TaskAction) (m : Method)
    (obj : TaskObj) (hact : taskGuardedActions.contains act = true) :
    (SAFE_METHODS.contains m = false →
      (taskActionAllowed u act m obj = true ↔
        u.is_authenticated = true ∧
          (obj.project.owner = u.uid ∨ obj.assignee = some u.uid))) ∧
    (SAFE_METHODS.contains m = true →
      (taskActionAllowed u act m obj = true ↔
        u.is_authenticated = true ∧
          (obj.project.owner = u.uid ∨ obj.assignee = some u.uid ∨ u.is_staff = true))) ∧
    (∀ ms : List UserId,
      taskActionAllowed u act m { obj with project := { obj.project with managers := ms } } =
        taskActionAllowed u act m obj) := by
  refine ⟨fun hm => ?_, fun hm => ?_, fun ms => rfl⟩
  · simp only [taskActionAllowed, hact, if_true, IsAssigneeOrProjectOwner, hm, if_false]
    simp [Bool.and_eq_true, Bool.or_eq_true, beq_iff_eq]
  · simp only [taskActionAllowed, hact, if_true, IsAssigneeOrProjectOwner, hm]
    simp [Bool.and_eq_true, Bool.or_eq_true, beq_iff_eq, or_assoc]

/-- Closed instance of `task_write_policy_assignee_or_owner`: for an
authenticated assignee (uid 3) of a task in project 7 owned by uid 1,
a PUT update decision agrees with the assignee-or-owner condition. -/
theorem task_write_policy_assignee_or_owner_witness :
    taskActionAllowed ⟨3, false, true, "employee"⟩ TaskAction.updateA Method.put
        ⟨5, some 3, ⟨7, 1, []⟩⟩ = true ↔
      (true = true ∧ ((1 : UserId) = 3 ∨ (some 3 : Option UserId) = some 3)) :=
  (task_write_policy_assignee_or_owner ⟨3, false, true, "employee"⟩ TaskAction.updateA
    Method.put ⟨5, some 3, ⟨7, 1, []⟩⟩ (by decide)).1 (by decide)

/-- C4: a WorkLog write validates exactly when the effective state after
the write references exactly one of task/project; leaving both set
fails with the "cannot be associated with both" message, leaving
neither fails with the "must be associated" message, and every row a
successful write stores satisfies the XOR invariant. -/
theorem worklog_xor_validation (inst : Option WorkLogRefs) (taskPatch projectPatch : FieldPatch) :
    (worklog_validate inst taskPatch projectPatch = Except.ok () ↔
      xorRefs ⟨effectiveRef taskPatch (inst.map WorkLogRefs.task),
               effectiveRef projectPatch (inst.map WorkLogRefs.project)⟩) ∧
    ((effectiveRef taskPatch (inst.map WorkLogRefs.task)).isSome = true →
      (effectiveRef projectPatch (inst.map WorkLogRefs.project)).isSome = true →
      worklog_validate inst taskPatch projectPatch =
        Except.error
          "Work log cannot be associated with both a task and a project simultaneously.") ∧
    (effectiveRef taskPatch (inst.map WorkLogRefs.task) = none →
      effectiveRef projectPatch (inst.map WorkLogRefs.project) = none →
      worklog_validate inst taskPatch projectPatch =
        Except.error "Work log must be associated with a task or a project.") ∧
    (∀ w : WorkLogRefs,
      worklog_apply_write inst taskPatch projectPatch = Except.ok w → xorRefs w) := by
  rcases hT : effectiveRef taskPatch (inst.map WorkLogRefs.task) with _ | a <;>
    rcases hP : effectiveRef projectPatch (inst.map WorkLogRefs.project) with _ | b <;>
      simp_all [worklog_validate, worklog_apply_write, xorRefs]

/-- Closed instance of `worklog_xor_validation`: a create supplying both
a task and a project fails with the "both" message. -/
theorem worklog_xor_validation_witness :
    worklog_validate none (some (some 4)) (some (some 9)) =
      Except.error
        "Work log cannot be associated with both a task and a project simultaneously." :=
  (worklog_xor_validation none (some (some 4)) (some (some 9))).2.1 (by decide) (by decide)

/-- C9: updating a Task's `parent_task_id` to its own id fails with
"A task cannot be its own parent." and leaves the stored parent
unchanged; any other existing parent id passes the field validation;
and only the one-level self-reference is rejected — a concrete
two-task cycle (task 2 already has parent 1, task 1 then takes parent
2) is accepted even though it puts task 1 in its own parent chain. -/
theorem parent_self_reference_rejected :
    (∀ (ids : List Nat) (tid : Nat) (stored : Option Nat),
      tid ∈ ids →
      task_update_parent ids tid stored (some tid) =
        (Except.error "A task cannot be its own parent.", stored)) ∧
    (∀ (ids : List Nat) (tid pid : Nat),
      pid ∈ ids → pid ≠ tid →
      validate_parent_task_id ids (some tid) (some pid) = Except.ok (some pid)) ∧
    (validate_parent_task_id [1, 2] (some 1) (some 2) = Except.ok (some 2) ∧
      parentChainMem (fun n => if n == 2 then some 1 else if n == 1 then some 2 else none)
        2 1 1 = true) := by
  refine ⟨fun ids tid stored hmem => ?_, fun ids tid pid hmem hne => ?_, ⟨rfl, rfl⟩⟩
  · simp [task_update_parent, validate_parent_task_id, hmem]
  · simp [validate_parent_task_id, hmem, hne]

/-- Closed instance of `parent_self_reference_rejected`: task 1, whose
stored parent is null, rejects itself as parent and keeps null. -/
theorem parent_self_reference_rejected_witness :
    task_update_parent [1, 2] 1 none (some 1) =
      (Except.error "A task cannot be its own parent.", none) :=
  parent_self_reference_rejected.1 [1, 2] 1 none (by simp)

/-- C10: every successful registration creates an account whose role is
"employee", and the decision and result ignore any role value supplied
in the request. -/
theorem registration_role_employee :
    (∀ (existingUsernames existingEmails : List String) (r : RegRequest) (a : Account),
      register_user existingUsernames existingEmails r = Except.ok a → a.role = "employee") ∧
    (∀ (existingUsernames existingEmails : List String) (r : RegRequest) (ro : Option String),
      register_user existingUsernames existingEmails { r with role := ro } =
        register_user existingUsernames existingEmails r) := by
  constructor
  · intro eu ee r a h
    unfold register_user at h
    split_ifs at h with h1 h2 h3
    have h4 := Except.ok.inj h
    subst h4
    rfl
  · intro eu ee r ro
    rfl

/-- Closed instance of `registration_role_employee`: a fresh
registration that tries to submit role "admin" still yields the role
"employee". -/
theorem registration_role_employee_witness :
    ({ username := "alice", email := "a@x.io", password := "pw12345!",
       first_name := "", last_name := "", phone_number := "",
       role := "employee" } : Account).role = "employee" :=
  registration_role_employee.1 [] []
    { username := "alice", email := "a@x.io", password := "pw12345!", password2 := "pw12345!",
      first_name := none, last_name := none, phone_number := none, role := some "admin" }
    _ rfl

/-- C8: for an actor who is neither staff nor role "admin", the WorkLog
query scope is exactly the actor's own rows, a lookup whose every
candidate row belongs to someone else answers `none` (NotFound), and
removing a foreign row from the store does not change the lookup's
answer (absent and foreign-owned are indistinguishable); staff and
admin actors see every row. -/
theorem worklog_scoping_not_found (u : User) (logs : List WorkLogRow) :
    (u.is_staff = false → u.role ≠ "admin" →
      ((∀ w : WorkLogRow, w ∈ worklog_get_queryset u logs ↔
          (w ∈ logs ∧ w.user = u.uid ∧ u.is_authenticated = true)) ∧
        (∀ wid : Nat, (∀ w ∈ logs, w.wid = wid → w.user ≠ u.uid) →
          worklog_retrieve u logs wid = none) ∧
        (∀ (w : WorkLogRow) (rest : List WorkLogRow), w.user ≠ u.uid →
          worklog_retrieve u (w :: rest) w.wid = worklog_retrieve u rest w.wid))) ∧
    ((u.is_staff = true ∨ u.role = "admin") → worklog_get_queryset u logs = logs) := by
  constructor
  · intro hstaff hadmin
    have hcond : (u.is_staff || u.role == "admin") = false := by
      simp [hstaff, hadmin]
    refine ⟨fun w => ?_, fun wid hall => ?_, fun w rest hw => ?_⟩
    · by_cases hauth : u.is_authenticated = true
      · simp [worklog_get_queryset, hcond, hauth, List.mem_filter, beq_iff_eq, and_comm]
      · simp only [Bool.not_eq_true] at hauth
        simp [worklog_get_queryset, hcond, hauth]
    · by_cases hauth : u.is_authenticated = true
      · simp only [worklog_retrieve, worklog_get_queryset, hcond, Bool.false_eq_true,
          if_false, hauth, if_true]
        rw [List.find?_eq_none]
        intro w hw
        rw [List.mem_filter] at hw
        simp only [beq_iff_eq] at hw ⊢
        intro hwid
        exact absurd hw.2 (hall w hw.1 hwid)
      · simp only [Bool.not_eq_true] at hauth
        simp [worklog_retrieve, worklog_get_queryset, hcond, hauth]
    · by_cases hauth : u.is_authenticated = true
      · simp only [worklog_retrieve, worklog_get_queryset, hcond, Bool.false_eq_true,
          if_false, hauth, if_true]
        rw [List.filter_cons_of_neg]
        simp [hw]
      · simp only [Bool.not_eq_true] at hauth
        simp [worklog_retrieve, worklog_get_queryset, hcond, hauth]
  · intro hsa
    have hcond : (u.is_staff || u.role == "admin") = true := by
      rcases hsa with h | h <;> simp [h]
    simp [worklog_get_queryset, hcond]

/-- Closed instance of `worklog_scoping_not_found`: a non-staff employee
(uid 3) looking up WorkLog id 9 owned by uid 4 gets `none`, the same
answer as when the row is absent. -/
theorem worklog_scoping_not_found_witness :
    worklog_retrieve ⟨3, false, true, "employee"⟩ [⟨9, 4⟩] 9 =
      worklog_retrieve ⟨3, false, true, "employee"⟩ [] 9 :=
  ((worklog_scoping_not_found ⟨3, false, true, "employee"⟩ [⟨9, 4⟩]).1 rfl
    (by decide)).2.2 ⟨9, 4⟩ [] (by decide)

/-- Membership in a sorted insert. -/
theorem mem_sortedInsert (x a : Int) (l : List Int) :
    a ∈ sortedInsert x l ↔ a = x ∨ a ∈ l := by
  induction l with
  | nil => simp [sortedInsert]
  | cons y ys ih =>
    simp only [sortedInsert]
    split_ifs with h1 h2
    · simp [List.mem_cons]
    · have hxy : x = y := by simpa using h2
      subst hxy
      simp [List.mem_cons]
    · simp only [List.mem_cons, ih]
      tauto

/-- Sorted insert keeps the key list strictly ascending. -/
theorem pairwise_sortedInsert (x : Int) (l : List Int)
    (h : l.Pairwise (· < ·)) : (sortedInsert x l).Pairwise (· < ·) := by
  induction l with
  | nil => simp [sortedInsert]
  | cons y ys ih =>
    rw [List.pairwise_cons] at h
    obtain ⟨hy, hys⟩ := h
    simp only [sortedInsert]
    split_ifs with h1 h2
    · refine List.Pairwise.cons ?_ (List.Pairwise.cons hy hys)
      intro z hz
      rcases List.mem_cons.mp hz with rfl | hz'
      · exact h1
      · exact lt_trans h1 (hy z hz')
    · exact List.Pairwise.cons hy hys
    · have hyx : y < x := by
        have hne : x ≠ y := by simpa using h2
        omega
      refine List.Pairwise.cons ?_ (ih hys)
      intro z hz
      rcases (mem_sortedInsert x z ys).mp hz with rfl | hz'
      · exact hyx
      · exact hy z hz'

/-- The group-by key list is strictly ascending. -/
theorem pairwise_sortedKeys (l : List Int) : (sortedKeys l).Pairwise (· < ·) := by
  induction l with
  | nil => simp [sortedKeys]
  | cons x xs ih =>
    simpa [sortedKeys] using pairwise_sortedInsert x _ (by simpa [sortedKeys] using ih)

/-- The group-by key list holds exactly the keys that occur. -/
theorem mem_sortedKeys (a : Int) (l : List Int) : a ∈ sortedKeys l ↔ a ∈ l := by
  induction l with
  | nil => simp [sortedKeys]
  | cons x xs ih =>
    simp only [sortedKeys, List.foldr_cons] at ih ⊢
    rw [mem_sortedInsert]
    simp [ih, List.mem_cons]

/-- C5: the velocity report selects exactly the tasks of project `p`
with status DONE, non-null story points and update timestamp within the
last 90 days; its week keys are strictly ascending and are exactly the
week buckets of the selected tasks; each entry's value is the sum of
story points of the selected tasks in that week; and on the spec's
scenario of three such tasks with points 8, 2 and 1 the summed series
totals 11. -/
theorem velocity_series_spec :
    (∀ (now : Int) (p : Nat) (tasks : List TaskRow) (t : TaskRow),
      t ∈ velocityFilter now p tasks ↔
        (t ∈ tasks ∧ t.project = p ∧ t.status = "DONE" ∧
          t.story_points.isSome = true ∧ now - 90 ≤ t.updated_at)) ∧
    (∀ (now : Int) (p : Nat) (tasks : List TaskRow),
      ((velocitySeries now p tasks).map Prod.fst).Pairwise (· < ·)) ∧
    (∀ (now : Int) (p : Nat) (tasks : List TaskRow) (w s : Int),
      (w, s) ∈ velocitySeries now p tasks →
        s = sumPoints ((velocityFilter now p tasks).filter
          fun t => truncWeek t.updated_at == w)) ∧
    (∀ (now : Int) (p : Nat) (tasks : List TaskRow) (w : Int),
      w ∈ (velocitySeries now p tasks).map Prod.fst ↔
        w ∈ (velocityFilter now p tasks).map fun t => truncWeek t.updated_at) ∧
    ((velocitySeries 100 1 exampleVelocityTasks).foldl (fun a x => a + x.2) 0 = 11) := by
  have hkeys : ∀ (now : Int) (p : Nat) (tasks : List TaskRow),
      (velocitySeries now p tasks).map Prod.fst =
        sortedKeys ((velocityFilter now p tasks).map fun t => truncWeek t.updated_at) := by
    intro now p tasks
    simp only [velocitySeries, List.map_map]
    have hfst : (Prod.fst ∘ fun w : Int =>
        (w, sumPoints ((velocityFilter now p tasks).filter
          fun t => truncWeek t.updated_at == w))) = id := rfl
    rw [hfst, List.map_id]
  refine ⟨fun now p tasks t => ?_, fun now p tasks => ?_, fun now p tasks w s hmem => ?_,
    fun now p tasks w => ?_, by decide⟩
  · simp only [velocityFilter, List.mem_filter, Bool.and_eq_true, beq_iff_eq,
      decide_eq_true_eq]
    tauto
  · rw [hkeys]
    exact pairwise_sortedKeys _
  · simp only [velocitySeries, List.mem_map] at hmem
    obtain ⟨w', _, heq⟩ := hmem
    rw [Prod.mk.injEq] at heq
    obtain ⟨rfl, rfl⟩ := heq
    rfl
  · rw [hkeys, mem_sortedKeys]

/-- Closed instance of `velocity_series_spec`: in the spec scenario the
week-91 entry of the series carries the sum of that week's story
points. -/
theorem velocity_series_spec_witness :
    (10 : Int) = sumPoints ((velocityFilter 100 1 exampleVelocityTasks).filter
      fun t => truncWeek t.updated_at == 91) :=
  velocity_series_spec.2.2.1 100 1 exampleVelocityTasks 91 10 (by decide)

/-- C6: an empty aggregated series yields the 404 `NoDataAvailable`
outcome with the per-report message and the export adapter is never
invoked; a failing external render on a non-empty series yields the 500
`ChartRenderingFailed` outcome instead; and the two outcomes are
distinct constructors. -/
theorem chart_empty_vs_render_failure :
    (∀ (now : Int) (p : Nat) (tasks : List TaskRow)
        (render : List (Int × Int) → Option String),
      ((velocitySeries now p tasks).isEmpty = true →
        project_velocity_chart now p tasks render =
          (ChartOutcome.noData "Not enough data to calculate project velocity.", false)) ∧
      ((velocitySeries now p tasks).isEmpty = false →
        render (velocitySeries now p tasks) = none →
        project_velocity_chart now p tasks render = (ChartOutcome.renderFailed, true)) ∧
      (∀ url : String, (velocitySeries now p tasks).isEmpty = false →
        render (velocitySeries now p tasks) = some url →
        project_velocity_chart now p tasks render = (ChartOutcome.chartUrl url, true))) ∧
    (∀ (monthOf : Int → Int) (now : Int) (tasks : List TaskRow)
        (render : List (Int × Int) → Option String),
      ((businessSeries monthOf now tasks).isEmpty = true →
        business_statistics_get monthOf now tasks render =
          (ChartOutcome.noData
            "No completed tasks with story points found for the last year.", false)) ∧
      ((businessSeries monthOf now tasks).isEmpty = false →
        render (businessSeries monthOf now tasks) = none →
        business_statistics_get monthOf now tasks render =
          (ChartOutcome.renderFailed, true))) ∧
    (∀ msg url : String,
      ChartOutcome.noData msg ≠ ChartOutcome.renderFailed ∧
      ChartOutcome.noData msg ≠ ChartOutcome.chartUrl url) := by
  refine ⟨fun now p tasks render => ⟨fun hemp => ?_, fun hemp hren => ?_,
      fun url hemp hren => ?_⟩,
    fun monthOf now tasks render => ⟨fun hemp => ?_, fun hemp hren => ?_⟩,
    fun msg url => ⟨fun h => ChartOutcome.noConfusion h, fun h => ChartOutcome.noConfusion h⟩⟩
  · simp [project_velocity_chart, hemp]
  · simp [project_velocity_chart, hemp, hren]
  · simp [project_velocity_chart, hemp, hren]
  · simp [business_statistics_get, hemp]
  · simp [business_statistics_get, hemp, hren]

/-- Closed instance of `chart_empty_vs_render_failure`: with no tasks
the velocity endpoint answers 404 without calling the renderer, and
with data but a failing renderer it answers 500. -/
theorem chart_empty_vs_render_failure_witness :
    project_velocity_chart 100 1 [] (fun _ => none) =
      (ChartOutcome.noData "Not enough data to calculate project velocity.", false) ∧
    project_velocity_chart 100 1 exampleVelocityTasks (fun _ => none) =
      (ChartOutcome.renderFailed, true) :=
  ⟨(chart_empty_vs_render_failure.1 100 1 [] (fun _ => none)).1 rfl,
   (chart_empty_vs_render_failure.1 100 1 exampleVelocityTasks (fun _ => none)).2.1
     (by decide) rfl⟩

end Employeest
